import Mathlib

/-!
Verification of the function-call detection and dispatch protocol of the
repository (files `tools.py` and `llm_with_functions.py`, together with the
router and conversation store that the spec describes at their interfaces).

Strings are modelled as `List Char`; Python string operations used by the
source (`str.replace`, `str.strip`, prefix tests, slicing) are defined below
with Python's semantics.  Components whose source file is not in the
repository excerpt (the call extractor / dispatcher of `function_router.py`
and the conversation store of `conversation.py`) are modelled from the spec;
each such definition carries a doc comment saying so.
-/

namespace Spec2Proof

/-- Characters of interest, written by code so that no literal brace occurs
inside string syntax elsewhere in the file. -/
def openBrace : Char := '\x7b'

def closeBrace : Char := '\x7d'

/-- Boolean test that `pat` is a prefix of `s` (Python `str.startswith`). -/
def pfx : List Char → List Char → Bool
  | [], _ => true
  | _ :: _, [] => false
  | a :: as, b :: bs => if a = b then pfx as bs else false

/-- Boolean membership of a character in a character list. -/
def hasChar (x : Char) : List Char → Bool
  | [] => false
  | c :: cs => if c = x then true else hasChar x cs

/-- Boolean test that `pat` occurs as a contiguous substring of `s`. -/
def occurs (pat : List Char) : List Char → Bool
  | [] => pfx pat []
  | c :: cs => if pfx pat (c :: cs) then true else occurs pat cs

/-- Index of the first occurrence of `pat` in `s`, if any. -/
def firstOccIdx (pat : List Char) : List Char → Option Nat
  | [] => if pat = [] then some 0 else none
  | c :: cs =>
    if pfx pat (c :: cs) then some 0
    else (firstOccIdx pat cs).map (fun n => n + 1)

/-- Number of positions of `s` at which `pat` occurs. -/
def countOcc (pat : List Char) : List Char → Nat
  | [] => 0
  | c :: cs => (if pfx pat (c :: cs) then 1 else 0) + countOcc pat cs

/-- Python's `str.replace(old, new)` on character lists: one left-to-right
pass, non-overlapping, the replacement text is not rescanned.  The fuel
argument (instantiated with the length of the scanned list) only serves
termination; each step consumes at least one character, so the fuel never
runs out on the initial call. -/
def pyReplaceFuel (old new : List Char) : Nat → List Char → List Char
  | 0, s => s
  | _ + 1, [] => []
  | fuel + 1, c :: cs =>
    if pfx old (c :: cs) then new ++ pyReplaceFuel old new fuel ((c :: cs).drop old.length)
    else c :: pyReplaceFuel old new fuel cs

/-- Python's `str.replace(old, new)`. -/
def pyReplace (old new s : List Char) : List Char :=
  pyReplaceFuel old new s.length s

/-- Python's notion of whitespace for `str.strip()`. -/
def isPySpace (c : Char) : Bool :=
  if c = ' ' then true else if c = '\t' then true else if c = '\n' then true
  else if c = '\r' then true else if c = '\x0b' then true else if c = '\x0c' then true
  else false

/-- Drop leading Python whitespace. -/
def pyStripLeft : List Char → List Char
  | [] => []
  | c :: cs => if isPySpace c then pyStripLeft cs else c :: cs

/-- Python's `str.strip()`: drop leading and trailing whitespace. -/
def pyStrip (s : List Char) : List Char :=
  ((pyStripLeft ((pyStripLeft s).reverse)).reverse)

/-! ## `tools.py` -/

/-- Abstract view of a sympy value as far as `calculate` observes it: whether
`float(result.evalf())` succeeds (and the resulting decimal string), and the
`str(result)` rendering used otherwise.  The sympy library is outside the
repository, so `sympify` is a parameter of the embedding. -/
structure SymVal where
  evalfFloat : Option (List Char)
  toStr : List Char
deriving DecidableEq

/-- Outcome of `sympify`: a value, a `SympifyError`, or any other exception
(with its message). -/
inductive SympifyOutcome where
  | ok (val : SymVal)
  | sympifyError
  | otherError (msg : List Char)
deriving DecidableEq

/-- The sanitisation performed by `calculate` (tools.py line 90): the chained
Python replaces removing the module-qualifier substrings, in source order. -/
def sanitizeExpr (expression : List Char) : List Char :=
  pyReplace "Math.".data []
    (pyReplace "np.".data []
      (pyReplace "numpy.".data []
        (pyReplace "math.".data [] expression)))

/-- `calculate` from tools.py (lines 76–113): sanitise the expression, run
`sympify`, render the value (preferring the float form), and convert each
exception into an error-message string.  The `SympifyError` message embeds
the original (unsanitised) expression; the generic handler embeds the
exception text. -/
def calculate (sympifyFn : List Char → SympifyOutcome) (expression : List Char) : List Char :=
  let clean_expression := sanitizeExpr expression
  match sympifyFn clean_expression with
  | SympifyOutcome.ok v =>
    let result_str := match v.evalfFloat with
      | some fs => fs
      | none => v.toStr
    "The result is: ".data ++ result_str
  | SympifyOutcome.sympifyError =>
    "Invalid mathematical expression: ".data ++ expression
  | SympifyOutcome.otherError m =>
    "Error calculating expression: ".data ++ m

/-- The part of `calculate` after sanitisation, as a function of the cleaned
expression (the error branch for `SympifyError` still reports the original
expression, exactly as the source does). -/
def calcFromClean (sympifyFn : List Char → SympifyOutcome)
    (expression clean : List Char) : List Char :=
  match sympifyFn clean with
  | SympifyOutcome.ok v =>
    let result_str := match v.evalfFloat with
      | some fs => fs
      | none => v.toStr
    "The result is: ".data ++ result_str
  | SympifyOutcome.sympifyError =>
    "Invalid mathematical expression: ".data ++ expression
  | SympifyOutcome.otherError m =>
    "Error calculating expression: ".data ++ m

/-- `get_tool_descriptions` from tools.py (lines 123–136): a constant string
(hence deterministic) listing both tools with one example invocation each. -/
def get_tool_descriptions : List Char :=
  ("Available tools:\n1. search_arxiv(query: str) - Search arXiv for academic papers\n   Example: \x7b\"function\": \"search_arxiv\", \"arguments\": \x7b\"query\": \"quantum computing\"\x7d\x7d\n\n2. calculate(expression: str) - Evaluate a mathematical expression\n   Example: \x7b\"function\": \"calculate\", \"arguments\": \x7b\"expression\": \"2+2*3\"\x7d\x7d\n").data

/-! ## `function_router.py` (modelled from the spec)

The router module itself is not part of the repository excerpt; only its
caller (`route_llm_output` in `llm_with_functions.py` line 132) is visible.
The definitions below are modelled from spec §4.2–§4.4 and §6. -/

/-- A JSON scalar of the call-marker wire format (spec §6): a string or a
number.  Numbers are modelled as integers; fractional literals are outside
the examples the spec fixes and make the parse fail (treated as prose). -/
inductive Scalar where
  | s (v : List Char)
  | n (v : Int)
deriving DecidableEq

/-- Top-level value of the call-marker object: a scalar or a flat mapping of
scalars.  Spec §6 fixes the wire format to this shape (no nested objects
beyond `arguments`, no arrays); anything deeper fails to parse and is
treated as prose. -/
inductive TopVal where
  | sc (v : Scalar)
  | ob (m : List (List Char × Scalar))
deriving DecidableEq

/-- Modelled from the spec (§4.2 step 5, §3): the parsed call produced by the
extractor — trimmed name plus the argument mapping as extracted. -/
structure ParsedCall where
  name : List Char
  args : List (List Char × Scalar)
deriving DecidableEq

/-- Modelled from the spec (§3): the router's result, final text plus the
was-a-call flag. -/
structure RouteResult where
  text : List Char
  was_call : Bool
deriving DecidableEq

/-- Modelled from the spec (§4.2 step 1): scan from just after an opening
brace for the balancing closing brace, depth-counting braces outside string
literals, with backslash-escape awareness inside strings.  Spec §9 leaves the
exact string-literal-aware balancing rule to the implementer; this model
counts only braces (the wire format has no arrays) and succeeds exactly when
depth returns to zero at a closing brace.  `acc` accumulates the marker seen
so far (starting with the opening brace). -/
def scanGo : List Char → Nat → Bool → Bool → List Char → Option (List Char)
  | [], _, _, _, _ => none
  | c :: rest, depth, inStr, esc, acc =>
    if inStr then
      if esc then scanGo rest depth true false (acc ++ [c])
      else if c = '\\' then scanGo rest depth true true (acc ++ [c])
      else if c = '"' then scanGo rest depth false false (acc ++ [c])
      else scanGo rest depth true false (acc ++ [c])
    else if c = '"' then scanGo rest depth true false (acc ++ [c])
    else if c = openBrace then scanGo rest (depth + 1) false false (acc ++ [c])
    else if c = closeBrace then
      if depth = 1 then some (acc ++ [c])
      else scanGo rest (depth - 1) false false (acc ++ [c])
    else scanGo rest depth false false (acc ++ [c])

/-- Modelled from the spec (§4.2 step 1): locate the first opening brace and
isolate the balanced `\x7b...\x7d` substring, if any. -/
def scanBalanced : List Char → Option (List Char)
  | [] => none
  | c :: cs => if c = openBrace then scanGo cs 1 false false [openBrace] else scanBalanced cs

/-- Skip JSON whitespace. -/
def skipWs : List Char → List Char
  | [] => []
  | c :: cs =>
    if c = ' ' then skipWs cs else if c = '\n' then skipWs cs
    else if c = '\t' then skipWs cs else if c = '\r' then skipWs cs
    else c :: cs

/-- JSON escape decoding for the characters the format uses. -/
def unescapeChar (c : Char) : Char :=
  if c = 'n' then '\n' else if c = 't' then '\t' else if c = 'r' then '\r' else c

/-- Parse the body of a JSON string literal (after the opening quote),
returning the decoded content and the rest of the input. -/
def parseStrBody : List Char → List Char → Option (List Char × List Char)
  | [], _ => none
  | c :: cs, acc =>
    if c = '"' then some (acc.reverse, cs)
    else if c = '\\' then
      match cs with
      | [] => none
      | e :: cs2 => parseStrBody cs2 (unescapeChar e :: acc)
    else parseStrBody cs (c :: acc)

/-- Is `c` a decimal digit? -/
def isDigitCh (c : Char) : Bool :=
  if '0' ≤ c then (if c ≤ '9' then true else false) else false

/-- Split a leading run of digits from the input. -/
def takeDigits : List Char → List Char × List Char
  | [] => ([], [])
  | c :: cs =>
    if isDigitCh c then
      let p := takeDigits cs
      (c :: p.1, p.2)
    else ([], c :: cs)

/-- Value of a digit run. -/
def digitsToNat : List Char → Nat
  | [] => 0
  | c :: cs => (c.toNat - 48) * 10 ^ cs.length + digitsToNat cs

/-- Parse a JSON integer literal. -/
def parseNum : List Char → Option (Int × List Char)
  | [] => none
  | c :: cs =>
    if c = '-' then
      match takeDigits cs with
      | ([], _) => none
      | (ds, rest) => some (-(digitsToNat ds : Int), rest)
    else
      match takeDigits (c :: cs) with
      | ([], _) => none
      | (ds, rest) => some ((digitsToNat ds : Int), rest)

/-- Parse a scalar value (string or number). -/
def parseScalarVal (s : List Char) : Option (Scalar × List Char) :=
  match skipWs s with
  | '"' :: rest => (parseStrBody rest []).map (fun p => (Scalar.s p.1, p.2))
  | s1 => (parseNum s1).map (fun p => (Scalar.n p.1, p.2))

/-- Parse the members of a flat object after its opening brace (first member
onward), accumulating key/scalar pairs until the closing brace. -/
def parseFlatMembers : Nat → List Char → List (List Char × Scalar) →
    Option (List (List Char × Scalar) × List Char)
  | 0, _, _ => none
  | fuel + 1, s, acc =>
    match skipWs s with
    | '"' :: rest =>
      match parseStrBody rest [] with
      | none => none
      | some (key, r1) =>
        match skipWs r1 with
        | ':' :: r2 =>
          match parseScalarVal r2 with
          | none => none
          | some (v, r3) =>
            match skipWs r3 with
            | ',' :: r4 => parseFlatMembers fuel r4 (acc ++ [(key, v)])
            | d :: r4 => if d = closeBrace then some (acc ++ [(key, v)], r4) else none
            | [] => none
        | _ => none
    | _ => none

/-- Parse a top-level value: a scalar, or a flat object of scalars. -/
def parseTopVal (fuel : Nat) (s : List Char) : Option (TopVal × List Char) :=
  match skipWs s with
  | c :: rest =>
    if c = openBrace then
      match skipWs rest with
      | d :: r2 =>
        if d = closeBrace then some (TopVal.ob [], r2)
        else (parseFlatMembers fuel (d :: r2) []).map (fun p => (TopVal.ob p.1, p.2))
      | [] => none
    else (parseScalarVal (c :: rest)).map (fun p => (TopVal.sc p.1, p.2))
  | [] => none

/-- Parse the members of the top-level marker object after its opening brace
(first member onward). -/
def parseTopMembers : Nat → List Char → List (List Char × TopVal) →
    Option (List (List Char × TopVal) × List Char)
  | 0, _, _ => none
  | fuel + 1, s, acc =>
    match skipWs s with
    | '"' :: rest =>
      match parseStrBody rest [] with
      | none => none
      | some (key, r1) =>
        match skipWs r1 with
        | ':' :: r2 =>
          match parseTopVal fuel r2 with
          | none => none
          | some (v, r3) =>
            match skipWs r3 with
            | ',' :: r4 => parseTopMembers fuel r4 (acc ++ [(key, v)])
            | d :: r4 => if d = closeBrace then some (acc ++ [(key, v)], r4) else none
            | [] => none
        | _ => none
    | _ => none

/-- Modelled from the spec (§4.2 step 2): parse the isolated marker substring
as a structured value — an object literal in the wire format of §6 — and
require that nothing but whitespace follows it. -/
def parseMarker (s : List Char) : Option (List (List Char × TopVal)) :=
  match skipWs s with
  | c :: rest =>
    if c = openBrace then
      match skipWs rest with
      | d :: r2 =>
        if d = closeBrace then (if skipWs r2 = [] then some [] else none)
        else
          match parseTopMembers (s.length + 1) (d :: r2) [] with
          | some (fields, r) => if skipWs r = [] then some fields else none
          | none => none
      | [] => none
    else none
  | [] => none

/-- First value bound to `k` in an association list. -/
def fieldLookup (fields : List (List Char × TopVal)) (k : List Char) : Option TopVal :=
  match fields with
  | [] => none
  | kv :: rest => if kv.1 = k then some kv.2 else fieldLookup rest k

/-- Modelled from the spec (§4.2): the extractor.  Steps: isolate the first
balanced brace span; parse it; verify the two required top-level keys
(`function` a string, `arguments` a flat mapping — flatness is enforced by
the parse shape); return the call with the name trimmed, or nothing. -/
def extract (raw : List Char) : Option ParsedCall :=
  match scanBalanced raw with
  | none => none
  | some marker =>
    match parseMarker marker with
    | none => none
    | some fields =>
      match fieldLookup fields "function".data, fieldLookup fields "arguments".data with
      | some (TopVal.sc (Scalar.s fname)), some (TopVal.ob args) =>
        some { name := pyStrip fname, args := args }
      | _, _ => none

/-- Modelled from the spec (§3, §4.3): a registry entry — tool name, required
parameter names, and the callable, which may fail (a raised exception is the
`Except.error` case). -/
structure ToolDescriptor where
  name : List Char
  required : List (List Char)
  invoke : List (List Char × List Char) → Except (List Char) (List Char)

/-- Modelled from the spec (§4.3): apologetic string for an unknown tool. -/
def unknownToolMsg (n : List Char) : List Char :=
  "Sorry, I don't have a tool named '".data ++ n ++ "'.".data

/-- Modelled from the spec (§4.3): apologetic string for a missing required
argument. -/
def missingArgMsg (p : List Char) : List Char :=
  "Sorry, the tool call is missing the required argument '".data ++ p ++ "'.".data

/-- Modelled from the spec (§4.3): user-facing string for a tool that raised
internally. -/
def toolFailMsg (m : List Char) : List Char :=
  "Sorry, the tool failed: ".data ++ m

/-- Look up a tool by name in the registry (first match). -/
def lookupTool (reg : List ToolDescriptor) (n : List Char) : Option ToolDescriptor :=
  match reg with
  | [] => none
  | t :: rest => if t.name = n then some t else lookupTool rest n

/-- First value bound to `k` in an argument mapping. -/
def argsLookup (args : List (List Char × Scalar)) (k : List Char) : Option Scalar :=
  match args with
  | [] => none
  | kv :: rest => if kv.1 = k then some kv.2 else argsLookup rest k

/-- Render a scalar as the text passed to a tool (both tools take a string
parameter; numbers are rendered in decimal, spec §4.3's trivial coercion). -/
def scalarChars : Scalar → List Char
  | Scalar.s v => v
  | Scalar.n v => (toString v).data

/-- First required parameter of `t` that is absent from `args`, if any. -/
def firstMissing (req : List (List Char)) (args : List (List Char × Scalar)) :
    Option (List Char) :=
  match req with
  | [] => none
  | p :: rest =>
    match argsLookup args p with
    | none => some p
    | some _ => firstMissing rest args

/-- Modelled from the spec (§4.3): the validator/dispatcher.  Look the name
up (unknown tool → apologetic string); check each required parameter is
present (missing → apologetic string); invoke the tool inside a failure
boundary (raised → descriptive string).  Nothing propagates. -/
def dispatch (reg : List ToolDescriptor) (call : ParsedCall) : List Char :=
  match lookupTool reg call.name with
  | none => unknownToolMsg call.name
  | some t =>
    match firstMissing t.required call.args with
    | some p => missingArgMsg p
    | none =>
      match t.invoke (call.args.map (fun kv => (kv.1, scalarChars kv.2))) with
      | Except.ok s => s
      | Except.error m => toolFailMsg m

/-- Modelled from the spec (§4.4): the router facade called at
`llm_with_functions.py` line 132.  Nothing extracted → the raw output passes
through with `was_call = false`; a call → dispatch, `was_call = true`. -/
def route_llm_output (reg : List ToolDescriptor) (raw : List Char) : RouteResult :=
  match extract raw with
  | none => { text := raw, was_call := false }
  | some call => { text := dispatch reg call, was_call := true }

/-- First argument value bound to `k`, defaulting to the empty string. -/
def getArgD (args : List (List Char × List Char)) (k : List Char) : List Char :=
  match args with
  | [] => []
  | kv :: rest => if kv.1 = k then kv.2 else getArgD rest k

/-- `AVAILABLE_TOOLS` from tools.py (lines 117–120): `search_arxiv` then
`calculate`, in registration order.  The tool bodies' external effects are
parameters: `searchFn` abstracts the arXiv HTTP query inside `search_arxiv`
(which catches its own exceptions and returns a string), `sympifyFn`
abstracts sympy inside `calculate`.  The required-parameter names come from
the tool signatures in tools.py (lines 14 and 76). -/
def AVAILABLE_TOOLS (searchFn : List Char → List Char)
    (sympifyFn : List Char → SympifyOutcome) : List ToolDescriptor :=
  [{ name := "search_arxiv".data, required := ["query".data],
     invoke := fun args => Except.ok (searchFn (getArgD args "query".data)) },
   { name := "calculate".data, required := ["expression".data],
     invoke := fun args => Except.ok (calculate sympifyFn (getArgD args "expression".data)) }]

/-- A closed registry instance used for concrete evaluations: the search
tool echoes its query, sympy rejects every expression. -/
def sampleRegistry : List ToolDescriptor :=
  AVAILABLE_TOOLS (fun q => q) (fun _ => SympifyOutcome.sympifyError)

/-! ## `llm_with_functions.py` -/

/-- Role of a history entry.  `conversation.py` is not in the excerpt; the
spec (§6) fixes the store to an ordered sequence of role/content pairs with
the two roles the prompt loop and its stop sequences use. -/
inductive Role where
  | user
  | assistant
deriving DecidableEq

/-- A conversation-history entry. -/
structure Message where
  role : Role
  content : List Char
deriving DecidableEq

/-- The role name as it is interpolated into the prompt. -/
def roleChars : Role → List Char
  | Role.user => "user".data
  | Role.assistant => "assistant".data

/-- Modelled from the spec (§6): `conversation_manager.add_user_message`
appends one user entry.  The global store is modelled by explicit state
passing. -/
def add_user_message (hist : List Message) (text : List Char) : List Message :=
  hist ++ [{ role := Role.user, content := text }]

/-- Modelled from the spec (§6): `conversation_manager.add_assistant_message`
appends one assistant entry. -/
def add_assistant_message (hist : List Message) (text : List Char) : List Message :=
  hist ++ [{ role := Role.assistant, content := text }]

/-- The text of the `system_prompt` literal before the spliced tool
descriptions (`_build_system_prompt`, lines 37–47). -/
def systemPromptHead : List Char :=
  ("You are a helpful AI assistant.\n\n    RULES:\n    1. ARITHMETIC: If the user asks clearly for a math calculation (e.g., \"calculate\", \"what is 5 + 5\", \"square root of...\"), YOU MUST RESPONSE WITH A JSON tool call for 'calculate'.\n    2. RESEARCH: If the user asks to \"search arxiv\" or \"find papers\", use 'search_arxiv'.\n    3. OTHER: For all other questions (capitals, jokes, history), respond normally in text. DO NOT use tools.\n    \n    TOOL OUTPUT FORMAT:\n    \x7b\"function\": \"function_name\", \"arguments\": \x7b\"arg_name\": \"arg_value\"\x7d\x7d\n    \n    ").data

/-- The text of the `system_prompt` literal after the spliced tool
descriptions (`_build_system_prompt`, lines 47–62). -/
def systemPromptTail : List Char :=
  ("\n    \n    Examples:\n    User: \"Calculate 25 * 4\"\n    Assistant: \x7b\"function\": \"calculate\", \"arguments\": \x7b\"expression\": \"25*4\"\x7d\x7d\n    \n    User: \"What is the square root of 144?\"\n    Assistant: \x7b\"function\": \"calculate\", \"arguments\": \x7b\"expression\": \"sqrt(144)\"\x7d\x7d\n    \n    User: \"Find papers on quantum computing\"\n    Assistant: \x7b\"function\": \"search_arxiv\", \"arguments\": \x7b\"query\": \"quantum computing\"\x7d\x7d\n    \n    User: \"What is the capital of Canada?\"\n    Assistant: The capital of Canada is Ottawa.\n    \n    IMPORTANT: Do not explain your tools. Just use them if needed. If no tool is needed, just speak.").data

/-- `_build_system_prompt` (llm_with_functions.py lines 30–64): the fixed
policy preamble, the registry's `get_tool_descriptions()`, and the worked
examples, concatenated. -/
def build_system_prompt : List Char :=
  systemPromptHead ++ get_tool_descriptions ++ systemPromptTail

/-- One history line of the prompt: the f-string of line 90. -/
def fmtMsg (m : Message) : List Char :=
  roleChars m.role ++ ": ".data ++ m.content ++ "\n".data

/-- The history section of the prompt (lines 86–90): the loop over
`history[-10:]`, each entry formatted in order. -/
def historySection (hist : List Message) : List Char :=
  ((hist.drop (hist.length - 10)).map fmtMsg).flatten

/-- The full prompt built by `generate` (lines 84–93). -/
def buildPrompt (hist : List Message) : List Char :=
  build_system_prompt ++ "\n\n".data ++ historySection hist ++ "assistant:".data

/-- Outcome of the HTTP call to the Ollama backend as `generate` observes
it: a response string, a `requests.exceptions.Timeout`, or another
`requests.exceptions.RequestException` (connection failure etc.). -/
inductive BackendResult where
  | ok (raw : List Char)
  | timeout
  | connError (msg : List Char)

/-- The timeout fallback string (line 147). -/
def timeoutFallback : List Char :=
  "Sorry, that took too long. Try clearing history or asking a shorter question.".data

/-- The connection-failure fallback string (line 154). -/
def connFallback : List Char :=
  "I'm having trouble connecting to the language model. Please make sure Ollama is running.".data

/-- The role-echo cleanup loop (lines 124–128): strip the first matching
role tag, then strip whitespace, and stop (`break`). -/
def stripRoleTag (s : List Char) : List Char :=
  if pfx "assistant:".data s then pyStrip (s.drop 10)
  else if pfx "Assistant:".data s then pyStrip (s.drop 10)
  else if pfx "ASSISTANT:".data s then pyStrip (s.drop 10)
  else s

/-- `LLMModuleWithFunctions.generate` (lines 66–156), with the conversation
store passed explicitly and the backend HTTP call abstracted as a function
from the prompt to its outcome.  Appends the user message, builds the
prompt, calls the backend, and in each branch appends exactly one assistant
entry: the routed response on success, a fallback string on timeout or
connection error.  Returns the response text together with the new
history. -/
def generate (reg : List ToolDescriptor) (backend : List Char → BackendResult)
    (hist : List Message) (user_text : List Char) : List Char × List Message :=
  let hist1 := add_user_message hist user_text
  let prompt := buildPrompt hist1
  match backend prompt with
  | BackendResult.ok raw =>
    let llm_output := stripRoleTag (pyStrip raw)
    let r := route_llm_output reg llm_output
    (r.text, add_assistant_message hist1 r.text)
  | BackendResult.timeout =>
    (timeoutFallback, add_assistant_message hist1 timeoutFallback)
  | BackendResult.connError _ =>
    (connFallback, add_assistant_message hist1 connFallback)

/-! ## Inputs used by concrete evaluations -/

/-- Spec §8 example: a valid calculate call marker. -/
def calcCallInput : List Char :=
  "\x7b\"function\": \"calculate\", \"arguments\": \x7b\"expression\": \"2+2\"\x7d\x7d".data

/-- Spec §8 example: a call naming a tool absent from the registry. -/
def unknownToolInput : List Char :=
  "\x7b\"function\": \"teleport\", \"arguments\": \x7b\"to\": \"mars\"\x7d\x7d".data

/-- Spec §8 example: a calculate call with an empty argument mapping. -/
def emptyArgsInput : List Char :=
  "\x7b\"function\": \"calculate\", \"arguments\": \x7b\x7d\x7d".data

/-- A marker truncated before any closing brace (model output cut off). -/
def truncatedInput : List Char :=
  "\x7b\"function\": \"calculate\", \"arguments\": \x7b\"expression\": \"2+2\"".data

/-- A marker with unbalanced braces (one closing brace short). -/
def unbalancedInput : List Char :=
  "\x7b\"a\": \x7b\"b\": 1\x7d".data

/-- A balanced brace span that is not valid JSON. -/
def malformedInput : List Char :=
  "so \x7bnot valid json\x7d ok".data

/-! ## Helper lemmas about the scanner -/

/-- Does the string contain an opening brace with a closing brace somewhere
after it — i.e. a `\x7b...\x7d` substring? -/
def hasBraceSpan : List Char → Bool
  | [] => false
  | c :: cs =>
    if c = openBrace then (if hasChar closeBrace cs then true else hasBraceSpan cs)
    else hasBraceSpan cs

theorem hasChar_iff_mem (x : Char) (l : List Char) : hasChar x l = true ↔ x ∈ l := by
  induction l with
  | nil => simp [hasChar]
  | cons c cs ih =>
    by_cases hc : c = x
    · simp [hasChar, hc]
    · simp [hasChar, hc, ih, List.mem_cons, Ne.symm hc]

theorem hasBraceSpan_iff (s : List Char) :
    hasBraceSpan s = true ↔
      ∃ l1 l2 l3, s = l1 ++ openBrace :: (l2 ++ closeBrace :: l3) := by
  induction s with
  | nil =>
    simp only [hasBraceSpan]
    constructor
    · intro h; exact absurd h (by simp)
    · rintro ⟨l1, l2, l3, h⟩
      exact absurd h (by cases l1 <;> simp)
  | cons c cs ih =>
    by_cases hc : c = openBrace
    · subst hc
      by_cases hcl : hasChar closeBrace cs = true
      · simp only [hasBraceSpan, hcl, if_pos rfl, if_true]
        constructor
        · intro _
          obtain ⟨l2, l3, hsplit⟩ := List.append_of_mem ((hasChar_iff_mem _ _).mp hcl)
          exact ⟨[], l2, l3, by simp [hsplit]⟩
        · intro _; trivial
      · have hcl' : hasChar closeBrace cs = false := by
          cases h : hasChar closeBrace cs
          · rfl
          · exact absurd h hcl
        simp only [hasBraceSpan, hcl', if_pos rfl, Bool.false_eq_true, if_false]
        constructor
        · intro h
          obtain ⟨l1, l2, l3, hsplit⟩ := ih.mp h
          exact ⟨openBrace :: l1, l2, l3, by simp [hsplit]⟩
        · rintro ⟨l1, l2, l3, hsplit⟩
          cases l1 with
          | nil =>
            simp only [List.nil_append, List.cons_eq_cons] at hsplit
            have : closeBrace ∈ cs := by
              rw [hsplit.2]
              exact List.mem_append_right _ (List.mem_cons_self _ _)
            exact absurd ((hasChar_iff_mem _ _).mpr this) (by simp [hcl'])
          | cons a l1' =>
            simp only [List.cons_append, List.cons_eq_cons] at hsplit
            exact ih.mpr ⟨l1', l2, l3, hsplit.2⟩
    · simp only [hasBraceSpan, if_neg hc]
      constructor
      · intro h
        obtain ⟨l1, l2, l3, hsplit⟩ := ih.mp h
        exact ⟨c :: l1, l2, l3, by simp [hsplit]⟩
      · rintro ⟨l1, l2, l3, hsplit⟩
        cases l1 with
        | nil =>
          simp only [List.nil_append, List.cons_eq_cons] at hsplit
          exact absurd hsplit.1 hc
        | cons a l1' =>
          simp only [List.cons_append, List.cons_eq_cons] at hsplit
          exact ih.mpr ⟨l1', l2, l3, hsplit.2⟩

/-- If no closing brace occurs in the remaining input, the balanced scan
cannot succeed. -/
theorem scanGo_eq_none (rest : List Char) :
    ∀ depth inStr esc acc, hasChar closeBrace rest = false →
      scanGo rest depth inStr esc acc = none := by
  induction rest with
  | nil => intro d i e a _; rfl
  | cons c cs ih =>
    intro d i e a h
    have hc : ¬ c = closeBrace := by
      intro hcc
      simp [hasChar, hcc] at h
    have hcs : hasChar closeBrace cs = false := by
      simpa [hasChar, hc] using h
    simp only [scanGo]
    split_ifs <;> exact ih _ _ _ _ hcs

/-- A string with no `\x7b...\x7d` span defeats the balanced scan. -/
theorem scanBalanced_eq_none_of_noSpan (s : List Char) (h : hasBraceSpan s = false) :
    scanBalanced s = none := by
  induction s with
  | nil => rfl
  | cons c cs ih =>
    by_cases hc : c = openBrace
    · subst hc
      have hcl : hasChar closeBrace cs = false := by
        by_cases hx : hasChar closeBrace cs = true
        · simp [hasBraceSpan, hx] at h
        · cases hy : hasChar closeBrace cs
          · rfl
          · exact absurd hy hx
      simp only [scanBalanced, if_pos rfl]
      exact scanGo_eq_none cs 1 false false [openBrace] hcl
    · have hcs : hasBraceSpan cs = false := by
        simpa [hasBraceSpan, hc] using h
      simp only [scanBalanced, if_neg hc]
      exact ih hcs

/-- A string with no closing brace at all defeats the balanced scan. -/
theorem scanBalanced_eq_none_of_noClose (s : List Char) (h : hasChar closeBrace s = false) :
    scanBalanced s = none := by
  induction s with
  | nil => rfl
  | cons c cs ih =>
    have hcs : hasChar closeBrace cs = false := by
      by_cases hc : c = closeBrace
      · simp [hasChar, hc] at h
      · simpa [hasChar, hc] using h
    by_cases hc : c = openBrace
    · subst hc
      simp only [scanBalanced, if_pos rfl]
      exact scanGo_eq_none cs 1 false false [openBrace] hcs
    · simp only [scanBalanced, if_neg hc]
      exact ih hcs

/-- No balanced span, no extracted call. -/
theorem extract_eq_none_of_scan (raw : List Char) (h : scanBalanced raw = none) :
    extract raw = none := by
  simp [extract, h]

/-! ## The claims -/

/-- C1: for every input string that contains no `\x7b...\x7d` substring, the
router returns the input text unchanged with `was_call = false`. -/
theorem claim1_route_no_braces (reg : List ToolDescriptor) (s : List Char)
    (h : ¬ ∃ l1 l2 l3, s = l1 ++ openBrace :: (l2 ++ closeBrace :: l3)) :
    route_llm_output reg s = { text := s, was_call := false } := by
  have hb : hasBraceSpan s = false := by
    cases hx : hasBraceSpan s
    · rfl
    · exact absurd ((hasBraceSpan_iff s).mp hx) h
  have hs : scanBalanced s = none := scanBalanced_eq_none_of_noSpan s hb
  have he : extract s = none := extract_eq_none_of_scan s hs
  simp [route_llm_output, he]

/-- Witness for C1 at the spec's own prose example. -/
theorem claim1_witness :
    route_llm_output sampleRegistry "The capital of Canada is Ottawa.".data
      = { text := "The capital of Canada is Ottawa.".data, was_call := false } :=
  claim1_route_no_braces sampleRegistry "The capital of Canada is Ottawa.".data
    (fun hex => absurd ((hasBraceSpan_iff _).mpr hex) (by decide))

/-- C2: `was_call` is true exactly when the extractor found a structurally
valid call marker (dispatch is then always attempted); in particular an
unknown tool and a missing required argument still yield `was_call = true`
with an error string. -/
theorem claim2_was_call_iff_extract :
    (∀ reg s, (route_llm_output reg s).was_call = true ↔ ∃ c, extract s = some c)
    ∧ route_llm_output sampleRegistry unknownToolInput
        = { text := unknownToolMsg "teleport".data, was_call := true }
    ∧ route_llm_output sampleRegistry emptyArgsInput
        = { text := missingArgMsg "expression".data, was_call := true } := by
  refine ⟨?_, by decide, by decide⟩
  intro reg s
  cases h : extract s <;> simp [route_llm_output, h]

/-- C3: the extractor — a total function by construction — returns nothing
on a marker with unbalanced braces or truncated or malformed JSON: for every
string with no closing brace (which covers every truncation before the first
closing brace), and at concrete unbalanced, truncated and non-JSON
inputs. -/
theorem claim3_extract_malformed_none :
    (∀ s, hasChar closeBrace s = false → extract s = none)
    ∧ extract truncatedInput = none
    ∧ extract unbalancedInput = none
    ∧ extract malformedInput = none := by
  refine ⟨?_, by decide, by decide, by decide⟩
  intro s h
  exact extract_eq_none_of_scan s (scanBalanced_eq_none_of_noClose s h)

/-- Witness for C3 on a concrete brace-free string. -/
theorem claim3_witness : extract "The answer is 42.".data = none :=
  claim3_extract_malformed_none.1 "The answer is 42.".data (by decide)

/-- C4: when the backend call raises a timeout or a connection error,
`generate` returns the corresponding user-visible fallback string and
records it as the assistant entry of the history; no backend-connectivity
failure escapes. -/
theorem claim4_backend_failure_fallback (reg : List ToolDescriptor)
    (backend : List Char → BackendResult) (hist : List Message) (u : List Char) :
    (backend (buildPrompt (add_user_message hist u)) = BackendResult.timeout →
      generate reg backend hist u
        = (timeoutFallback, add_assistant_message (add_user_message hist u) timeoutFallback))
    ∧ (∀ m, backend (buildPrompt (add_user_message hist u)) = BackendResult.connError m →
      generate reg backend hist u
        = (connFallback, add_assistant_message (add_user_message hist u) connFallback)) := by
  constructor
  · intro h
    simp [generate, h]
  · intro m h
    simp [generate, h]

/-- Witness for C4: a backend that times out, and one that cannot connect. -/
theorem claim4_witness :
    generate sampleRegistry (fun _ => BackendResult.timeout) [] []
      = (timeoutFallback, add_assistant_message (add_user_message [] []) timeoutFallback)
    ∧ generate sampleRegistry (fun _ => BackendResult.connError []) [] []
      = (connFallback, add_assistant_message (add_user_message [] []) connFallback) :=
  ⟨(claim4_backend_failure_fallback sampleRegistry (fun _ => BackendResult.timeout) [] []).1 rfl,
   (claim4_backend_failure_fallback sampleRegistry (fun _ => BackendResult.connError []) [] []).2 [] rfl⟩

/-- C5: every call to `generate` appends exactly one user entry and exactly
one assistant entry — the returned response — to the history, in every
outcome branch. -/
theorem claim5_one_user_one_assistant (reg : List ToolDescriptor)
    (backend : List Char → BackendResult) (hist : List Message) (u : List Char) :
    ∃ r, generate reg backend hist u
      = (r, hist ++ [{ role := Role.user, content := u },
                     { role := Role.assistant, content := r }]) := by
  cases h : backend (buildPrompt (add_user_message hist u)) with
  | ok raw =>
    refine ⟨(route_llm_output reg (stripRoleTag (pyStrip raw))).text, ?_⟩
    simp only [generate, h]
    simp [add_user_message, add_assistant_message]
  | timeout =>
    refine ⟨timeoutFallback, ?_⟩
    simp only [generate, h]
    simp [add_user_message, add_assistant_message]
  | connError m =>
    refine ⟨connFallback, ?_⟩
    simp only [generate, h]
    simp [add_user_message, add_assistant_message]

/-- C6: the history section of the prompt is built from exactly the last 10
history messages: histories of at most 10 messages appear whole and in
order; the prompt depends only on the last 10 messages; and for longer
histories the section is built from the final 10 messages only. -/
theorem claim6_prompt_last_ten :
    (∀ hist : List Message, hist.length ≤ 10 →
      historySection hist = (hist.map fmtMsg).flatten)
    ∧ (∀ h1 h2 : List Message, h1.drop (h1.length - 10) = h2.drop (h2.length - 10) →
      buildPrompt h1 = buildPrompt h2)
    ∧ (∀ hist : List Message, 10 < hist.length →
      historySection hist = ((hist.drop (hist.length - 10)).map fmtMsg).flatten
      ∧ (hist.drop (hist.length - 10)).length = 10) := by
  refine ⟨?_, ?_, ?_⟩
  · intro hist h
    simp [historySection, Nat.sub_eq_zero_of_le h]
  · intro h1 h2 h
    simp [buildPrompt, historySection, h]
  · intro hist h
    exact ⟨rfl, by simp [List.length_drop, Nat.sub_sub_self h.le]⟩

/-- Witness for C6: a one-message history renders whole; an 11-message
history contributes exactly its last 10 entries. -/
theorem claim6_witness :
    historySection [{ role := Role.user, content := "hi".data }]
      = ([{ role := Role.user, content := "hi".data }].map fmtMsg).flatten
    ∧ ((List.replicate 11 ({ role := Role.user, content := "hi".data } : Message)).drop
        ((List.replicate 11 ({ role := Role.user, content := "hi".data } : Message)).length - 10)).length = 10 :=
  ⟨claim6_prompt_last_ten.1 _ (by simp),
   (claim6_prompt_last_ten.2.2
     (List.replicate 11 ({ role := Role.user, content := "hi".data } : Message))
     (by simp)).2⟩

set_option maxRecDepth 40000 in
/-- C7: the system prompt contains the name of every tool in the registry;
in particular both `search_arxiv` and `calculate` occur as substrings. -/
theorem claim7_system_prompt_tool_names :
    (∀ searchFn sympifyFn,
      (AVAILABLE_TOOLS searchFn sympifyFn).all
        (fun t => occurs t.name build_system_prompt) = true)
    ∧ occurs "search_arxiv".data build_system_prompt = true
    ∧ occurs "calculate".data build_system_prompt = true := by
  refine ⟨?_, by decide, by decide⟩
  intro searchFn sympifyFn
  simp only [AVAILABLE_TOOLS, List.all_cons, List.all_nil, Bool.and_true]
  decide

set_option maxRecDepth 40000 in
/-- C8: `get_tool_descriptions` is a constant of the embedding (hence every
call returns the same string); it lists the registered tools in registration
order (the `search_arxiv` entry strictly before the `calculate` entry), each
with its parameter summary, and exactly one example invocation per tool. -/
theorem claim8_tool_descriptions_catalogue :
    (∀ searchFn sympifyFn,
      (AVAILABLE_TOOLS searchFn sympifyFn).map ToolDescriptor.name
        = ["search_arxiv".data, "calculate".data]
      ∧ countOcc "Example: ".data get_tool_descriptions
        = (AVAILABLE_TOOLS searchFn sympifyFn).length)
    ∧ occurs "search_arxiv(query: str)".data get_tool_descriptions = true
    ∧ occurs "calculate(expression: str)".data get_tool_descriptions = true
    ∧ (firstOccIdx "search_arxiv".data get_tool_descriptions).getD 0
        < (firstOccIdx "calculate".data get_tool_descriptions).getD 0 := by
  refine ⟨?_, by decide, by decide, by decide⟩
  intro searchFn sympifyFn
  constructor
  · simp only [AVAILABLE_TOOLS, List.map_cons, List.map_nil]
  · simp only [AVAILABLE_TOOLS, List.length_cons, List.length_nil]
    decide

/-- C9: `calculate` is total and never raises: whatever `sympify` does, the
result is either a string beginning with `The result is: `, or one of the
two error-message strings. -/
theorem claim9_calculate_total (sympifyFn : List Char → SympifyOutcome) (e : List Char) :
    (∃ r, calculate sympifyFn e = "The result is: ".data ++ r)
    ∨ calculate sympifyFn e = "Invalid mathematical expression: ".data ++ e
    ∨ (∃ m, calculate sympifyFn e = "Error calculating expression: ".data ++ m) := by
  cases h : sympifyFn (sanitizeExpr e) with
  | ok v =>
    left
    refine ⟨(match v.evalfFloat with | some fs => fs | none => v.toStr), ?_⟩
    simp [calculate, h]
  | sympifyError =>
    right; left
    simp [calculate, h]
  | otherError m =>
    right; right
    exact ⟨m, by simp [calculate, h]⟩

/-- C10 counterexample: the claim that two expressions differing only by
module-qualifier prefixes produce the same result is false on the code —
when sympy rejects the cleaned expression (here `(`, a `SympifyError` in
real sympy), the error message echoes the original, unsanitised expression,
so `math.(` and `(` produce different strings. -/
theorem claim10_counterexample :
    ¬ (calculate (fun _ => SympifyOutcome.sympifyError) "math.(".data
       = calculate (fun _ => SympifyOutcome.sympifyError) "(".data) := by decide

/-- C10 as amended: `calculate` evaluates the expression with the
module-qualifier substrings removed (one left-to-right `replace` pass per
pattern, in the source's order), `math.sqrt(4)` is evaluated as `sqrt(4)`,
and prefix-differing expressions give the same result whenever sympify does
not reject the cleaned expression with a `SympifyError`. -/
theorem claim10_sanitize_amended :
    (∀ sympifyFn e, calculate sympifyFn e = calcFromClean sympifyFn e (sanitizeExpr e))
    ∧ sanitizeExpr "math.sqrt(4)".data = "sqrt(4)".data
    ∧ sanitizeExpr "np.sqrt(4)".data = "sqrt(4)".data
    ∧ sanitizeExpr "numpy.sqrt(4)".data = "sqrt(4)".data
    ∧ sanitizeExpr "Math.sqrt(4)".data = "sqrt(4)".data
    ∧ (∀ sympifyFn, sympifyFn "sqrt(4)".data ≠ SympifyOutcome.sympifyError →
        (calculate sympifyFn "math.sqrt(4)".data = calculate sympifyFn "sqrt(4)".data
         ∧ calculate sympifyFn "np.sqrt(4)".data = calculate sympifyFn "sqrt(4)".data
         ∧ calculate sympifyFn "numpy.sqrt(4)".data = calculate sympifyFn "sqrt(4)".data
         ∧ calculate sympifyFn "Math.sqrt(4)".data = calculate sympifyFn "sqrt(4)".data)) := by
  refine ⟨?_, by decide, by decide, by decide, by decide, ?_⟩
  · intro sympifyFn e
    cases h : sympifyFn (sanitizeExpr e) <;> simp [calculate, calcFromClean, h]
  · intro sympifyFn hf
    have s0 : sanitizeExpr "sqrt(4)".data = "sqrt(4)".data := by decide
    have s1 : sanitizeExpr "math.sqrt(4)".data = "sqrt(4)".data := by decide
    have s2 : sanitizeExpr "np.sqrt(4)".data = "sqrt(4)".data := by decide
    have s3 : sanitizeExpr "numpy.sqrt(4)".data = "sqrt(4)".data := by decide
    have s4 : sanitizeExpr "Math.sqrt(4)".data = "sqrt(4)".data := by decide
    cases h : sympifyFn "sqrt(4)".data with
    | ok v => refine ⟨?_, ?_, ?_, ?_⟩ <;> simp [calculate, s0, s1, s2, s3, s4, h]
    | sympifyError => exact absurd h hf
    | otherError m => refine ⟨?_, ?_, ?_, ?_⟩ <;> simp [calculate, s0, s1, s2, s3, s4, h]

/-- Witness for the amended C10 with a sympify that succeeds on `sqrt(4)`
(as real sympy does). -/
theorem claim10_witness :
    calculate (fun _ => SympifyOutcome.ok { evalfFloat := some "2.0".data, toStr := "2".data })
        "math.sqrt(4)".data
      = calculate (fun _ => SympifyOutcome.ok { evalfFloat := some "2.0".data, toStr := "2".data })
        "sqrt(4)".data :=
  (claim10_sanitize_amended.2.2.2.2.2
    (fun _ => SympifyOutcome.ok { evalfFloat := some "2.0".data, toStr := "2".data })
    (by decide)).1

end Spec2Proof
